import Mathlib

/-!
Verification of the AutoClipAI frontend and of the spec-modelled pipeline core.

The upload widgets, mask editor, status pollers and the Pexels helper are
embedded from the TypeScript sources; the Job Orchestrator state machine and
the Highlight Analyzer validation, whose implementation is not part of the
provided sources, are modelled from the specification (spec.md §3, §4.3, §4.6).
-/

/-- Client-side metadata of a selected `File` object: the fields the upload
components read (`file.name`, `file.type`, `file.size`). -/
structure FileMeta where
  name : String
  type : String
  size : Nat
deriving DecidableEq, Repr

/-- The accepted MIME types, as listed identically in `validateFile`
(VideoUpload), `validateAndSetFile` (CaptionRemover, ViralClipsPage) and
`handleFileSelect` (WatermarkRemover): `validTypes`. -/
def validTypes : List String := ["video/mp4", "video/quicktime", "video/x-matroska"]

/-- The error message set on an unsupported MIME type, identical in all four
upload components. -/
def invalidTypeMsg : String := "Please upload MP4, MOV, or MKV files only."

namespace VideoUpload

/-- The `UploadState` React state of `VideoUpload` (part_005). -/
structure UploadState where
  isDragging : Bool
  file : Option FileMeta
  uploading : Bool
  progress : Nat
  error : Option String
deriving DecidableEq, Repr

/-- `const maxSize = 10 * 1024 * 1024 * 1024; // 10GB` in `validateFile`. -/
def maxSize : Nat := 10 * 1024 * 1024 * 1024

/-- The size-limit error message of `validateFile`. -/
def sizeErrMsg : String := "File size must be under 10GB."

/-- `validateFile` (part_005 lines 37-50): rejects a MIME type outside
`validTypes`, then a size above `maxSize`; returns the updated state together
with the boolean result. -/
def validateFile (s : UploadState) (f : FileMeta) : UploadState × Bool :=
  if (validTypes.contains f.type) = false then
    ({ s with error := some invalidTypeMsg }, false)
  else if f.size > maxSize then
    ({ s with error := some sizeErrMsg }, false)
  else
    (s, true)

/-- `handleFileSelect` (part_005 lines 62-68): clears the error, then stores
the file only when `validateFile` accepts it. -/
def handleFileSelect (s : UploadState) (f? : Option FileMeta) : UploadState :=
  let s0 := { s with error := none }
  match f? with
  | none => s0
  | some f =>
    let v := validateFile s0 f
    if v.2 then { v.1 with file := some f } else v.1

/-- `handleDrop` (part_005 lines 52-60): clears dragging and the error, then
stores the file only when `validateFile` accepts it. -/
def handleDrop (s : UploadState) (f? : Option FileMeta) : UploadState :=
  let s0 := { s with isDragging := false, error := none }
  match f? with
  | none => s0
  | some f =>
    let v := validateFile s0 f
    if v.2 then { v.1 with file := some f } else v.1

/-- `handleUpload` (part_005 lines 70-99) returns early when `state.file` is
null; otherwise the POST body carries exactly `state.file`.  The value is the
file of the issued upload request, `none` when no request is issued. -/
def handleUpload (s : UploadState) : Option FileMeta :=
  match s.file with
  | none => none
  | some f => some f

/-- The dropzone help text of `VideoUpload` (part_005 line 178), verbatim. -/
def dropzoneHelpText : String := "or click to browse â€¢ MP4, MOV, MKV up to 500MB"

end VideoUpload

namespace ViralClipsPage

/-- The status union of the `JobStatus` interface of part_006 (lines 7-15). -/
inductive JobStatus
  | pending
  | processing
  | completed
  | failed
deriving DecidableEq, Repr, Fintype

/-- The string value each member of the union denotes. -/
def statusText : JobStatus → String
  | .pending => "pending"
  | .processing => "processing"
  | .completed => "completed"
  | .failed => "failed"

/-- The part of the page state `validateAndSetFile` and `handleSubmit`
touch: the accepted file and the error banner. -/
structure PageState where
  file : Option FileMeta
  error : Option String
deriving DecidableEq, Repr

/-- `validateAndSetFile` (part_006 lines 41-49): an unsupported MIME type only
sets the error; a supported one stores the file and clears the error. -/
def validateAndSetFile (s : PageState) (f : FileMeta) : PageState :=
  if validTypes.contains f.type then
    { s with file := some f, error := none }
  else
    { s with error := some invalidTypeMsg }

/-- `handleSubmit` (part_006 lines 56-95) returns early when `file` is null;
otherwise the upload request carries exactly the stored file.  The value is
the file of the issued request, `none` when no request is issued. -/
def handleSubmit (s : PageState) : Option FileMeta :=
  match s.file with
  | none => none
  | some f => some f

end ViralClipsPage

namespace CaptionRemover

/-- The part of the `CaptionRemover` state (part_003) that `validateAndSetFile`
and `handleSubmit` touch. -/
structure PageState where
  file : Option FileMeta
  error : Option String
deriving DecidableEq, Repr

/-- `validateAndSetFile` (part_003 lines 37-45): an unsupported MIME type only
sets the error; a supported one stores the file and clears the error. -/
def validateAndSetFile (s : PageState) (f : FileMeta) : PageState :=
  if validTypes.contains f.type then
    { s with file := some f, error := none }
  else
    { s with error := some invalidTypeMsg }

/-- `handleSubmit` (part_003 lines 54-81) returns early when `file` is null;
otherwise the request carries exactly the stored file. -/
def handleSubmit (s : PageState) : Option FileMeta :=
  match s.file with
  | none => none
  | some f => some f

end CaptionRemover

namespace WatermarkRemover

/-- The `MaskBox` interface of part_002 (lines 6-11).  The number inputs admit
negative values, so the fields are integers. -/
structure MaskBox where
  x : Int
  y : Int
  width : Int
  height : Int
deriving DecidableEq, Repr

/-- JavaScript `Math.round` on a finite value: round half up. -/
def jsRound (q : ℚ) : Int := Int.floor (q + 1 / 2)

/-- `getRelativeCoords` (part_002 lines 46-63): the mouse position relative to
the container, scaled by `videoWidth / displayWidth` and
`videoHeight / displayHeight` and rounded. -/
def getRelativeCoords (clientX clientY rectLeft rectTop
    videoWidth videoHeight displayWidth displayHeight : ℚ) : Int × Int :=
  let scaleX := videoWidth / displayWidth
  let scaleY := videoHeight / displayHeight
  (jsRound ((clientX - rectLeft) * scaleX), jsRound ((clientY - rectTop) * scaleY))

/-- The box `handleMouseMove` (part_002 lines 74-86) stores for a drag from
`drawStart` to `coords`: componentwise minimum corner and absolute extents. -/
def dragMaskBox (drawStart coords : Int × Int) : MaskBox :=
  { x := min drawStart.1 coords.1
    y := min drawStart.2 coords.2
    width := |coords.1 - drawStart.1|
    height := |coords.2 - drawStart.2| }

/-- `parseInt(e.target.value) || 0` in the mask coordinate inputs (part_002
line 243): `none` models a `NaN` parse and is coerced to `0`; a parsed `0` is
falsy and also yields `0`. -/
def jsParseIntOr0 : Option Int → Int
  | none => 0
  | some n => n

/-- The four coordinate inputs of the mask editor (part_002 lines 232-247). -/
inductive MaskKey
  | x
  | y
  | width
  | height
deriving DecidableEq, Repr

/-- `setMaskBox(m => ({ ...m, [key]: parseInt(e.target.value) || 0 }))`
(part_002 line 243). -/
def setMaskField (m : MaskBox) (key : MaskKey) (raw : Option Int) : MaskBox :=
  match key with
  | .x => { m with x := jsParseIntOr0 raw }
  | .y => { m with y := jsParseIntOr0 raw }
  | .width => { m with width := jsParseIntOr0 raw }
  | .height => { m with height := jsParseIntOr0 raw }

/-- The `disabled` condition of the submit button (part_002 line 265):
`uploading || maskBox.width < 10 || maskBox.height < 10`. -/
def submitDisabled (uploading : Bool) (m : MaskBox) : Bool :=
  uploading || decide (m.width < 10) || decide (m.height < 10)

/-- The `mask_box` form value of `handleSubmit` (part_002 line 102). -/
def maskBoxParam (m : MaskBox) : String :=
  toString m.x ++ "," ++ toString m.y ++ "," ++ toString m.width ++ "," ++ toString m.height

/-- The submit control: a disabled HTML button does not fire `onClick`, so
`handleSubmit` (part_002 lines 93-121) runs only when `submitDisabled` is
false, and the issued request then carries `maskBoxParam`.  The value is the
`mask_box` field of the issued request, `none` when no request is issued. -/
def submitRequest (uploading : Bool) (m : MaskBox) : Option String :=
  if submitDisabled uploading m then none else some (maskBoxParam m)

end WatermarkRemover

namespace ProcessingStatus

/-- The status union of the `JobStatus` interface of ProcessingStatus.tsx
(lines 6-14). -/
inductive JobStatus
  | pending
  | processing
  | completed
  | failed
deriving DecidableEq, Repr, Fintype

/-- The string value each member of the union denotes. -/
def statusText : JobStatus → String
  | .pending => "pending"
  | .processing => "processing"
  | .completed => "completed"
  | .failed => "failed"

/-- The status badge text `{status?.status || 'ready'}`
(ProcessingStatus.tsx line 106): the held status string, or the placeholder
`ready` while no status response is held. -/
def badgeText : Option JobStatus → String
  | some s => statusText s
  | none => "ready"

/-- The four status strings of the data-model union (spec §3). -/
def jobStatusStrings : List String := ["pending", "processing", "completed", "failed"]

end ProcessingStatus

namespace CaptionRemoverPage

/-- The status union of the `JobStatus` interface of part_009 (lines 8-15):
this page's job state never holds `pending`. -/
inductive JobStatus
  | processing
  | completed
  | failed
deriving DecidableEq, Repr, Fintype

/-- The string value each member of the union denotes. -/
def statusText : JobStatus → String
  | .processing => "processing"
  | .completed => "completed"
  | .failed => "failed"

end CaptionRemoverPage

namespace ViralClipsPage

/-- The body of a status response as `pollJobStatus` (part_006 lines 97-120)
reads it from untyped JSON: `status` is whatever string the server sent, the
remaining fields may be absent. -/
structure PollData where
  status : String
  progress : Option Nat
  message : Option String
  clips : Option (List String)
  error : Option String
deriving DecidableEq, Repr

/-- The outcome of one `fetch` of the status endpoint inside the interval
callback: the fetch rejected (network error), the response was not ok
(the callback throws and catches), or ok with a parsed body. -/
inductive PollResult
  | fetchFailed
  | notOk
  | ok (data : PollData)
deriving DecidableEq, Repr

/-- The stored job state `setJob` updates (the `JobStatus` interface of
part_006, with `status` as the runtime string received from the server). -/
structure StoredJob where
  jobId : String
  filename : String
  status : String
  progress : Nat
  message : String
  clips : Option (List String)
  error : Option String
deriving DecidableEq, Repr

/-- The poller: the stored job plus whether the interval is still active. -/
structure PollState where
  job : Option StoredJob
  active : Bool
deriving DecidableEq, Repr

/-- `const interval = setInterval(..., 2000)` (part_006 line 119; the same
constant appears in part_009 line 52 and ProcessingStatus.tsx line 66). -/
def pollIntervalMs : Nat := 2000

/-- One tick of `pollJobStatus` (part_006 lines 97-120): after
`clearInterval` the callback no longer runs; a failed or non-ok fetch is
caught (`console.error`) leaving the state untouched; an ok response updates
the stored job (`data.progress || 0`, `data.message || ''`) and clears the
interval exactly when the reported status is `completed` or `failed`. -/
def pollTick (s : PollState) (r : PollResult) : PollState :=
  if s.active = false then s
  else
    match r with
    | .fetchFailed => s
    | .notOk => s
    | .ok d =>
      let s' : PollState :=
        { s with job := s.job.map fun prev =>
            { prev with
                status := d.status
                progress := d.progress.getD 0
                message := d.message.getD ""
                clips := d.clips
                error := d.error } }
      if d.status = "completed" || d.status = "failed" then
        { s' with active := false }
      else
        s'

end ViralClipsPage

namespace Pexels

/-- One entry of `video_files` in the Pexels API response (pexels.ts
lines 7-14). -/
structure PexelsVideoFile where
  id : Nat
  quality : String
  file_type : String
  width : Nat
  height : Nat
  link : String
deriving DecidableEq, Repr

/-- A `PexelsVideo` of the API response (pexels.ts lines 3-16). -/
structure PexelsVideo where
  id : Nat
  width : Nat
  height : Nat
  video_files : List PexelsVideoFile
  image : String
deriving DecidableEq, Repr

/-- The `PexelsResponse` body (pexels.ts lines 18-20). -/
structure PexelsResponse where
  videos : List PexelsVideo
deriving DecidableEq, Repr

/-- JavaScript `a || b` over `string | undefined`: the left value when it is
a nonempty string, otherwise the right value. -/
def jsOrString (a b : Option String) : Option String :=
  match a with
  | some s => if s = "" then b else some s
  | none => b

/-- The predicate of the `hdFile` lookup (pexels.ts lines 144-146). -/
def isHdMp4Vertical (f : PexelsVideoFile) : Bool :=
  f.quality = "hd" && f.width < f.height && f.file_type = "video/mp4"

/-- The predicate of the `sdFile` lookup (pexels.ts lines 147-149). -/
def isSdMp4Vertical (f : PexelsVideoFile) : Bool :=
  f.quality = "sd" && f.width < f.height && f.file_type = "video/mp4"

/-- `hdFile?.link || sdFile?.link || video.video_files[0]?.link`
(pexels.ts line 150). -/
def chooseLink (v : PexelsVideo) : Option String :=
  jsOrString ((v.video_files.find? isHdMp4Vertical).map fun f => f.link)
    (jsOrString ((v.video_files.find? isSdMp4Vertical).map fun f => f.link)
      ((v.video_files.head?).map fun f => f.link))

/-- The outcome of the `fetch` against the Pexels search endpoint: the fetch
or the JSON parse rejected, the response was not ok (the function throws and
catches), or ok with a parsed body. -/
inductive FetchOutcome
  | fetchError
  | notOk
  | ok (data : PexelsResponse)
deriving DecidableEq, Repr

/-- `filter(Boolean)` over `(string | undefined)[]` (pexels.ts line 152):
keeps exactly the truthy entries, i.e. the nonempty strings. -/
def keepTruthy (o : Option String) : Option String :=
  o.bind fun s => if s = "" then none else some s

/-- `fetchVerticalVideos` (pexels.ts lines 108-159): returns `[]` when the
API key is empty, when the response is not ok, or when any error occurs;
otherwise filters the received videos to the vertical ones
(`video.height > video.width`), takes the first `count`, maps each to its
chosen link and keeps the truthy links.  The `query` only shapes the request
URL, never the shape of the result. -/
def fetchVerticalVideos (apiKey : String) (query : String) (count : Nat)
    (outcome : FetchOutcome) : List String :=
  if apiKey = "" then []
  else
    match outcome with
    | .fetchError => []
    | .notOk => []
    | .ok data =>
      ((((data.videos.filter fun v => v.width < v.height).take count).map
        chooseLink).filterMap keepTruthy)

end Pexels

namespace Orchestrator

/-- Modelled from the spec: the four job statuses of the Job Orchestrator
state machine (spec §3, §4.6); the orchestrator implementation is not among
the provided sources. -/
inductive JobState
  | pending
  | processing
  | completed
  | failed
deriving DecidableEq, Repr, Fintype

/-- Modelled from the spec: the Job record fields the state machine mutates
(spec §3): status, progress percentage, message, error detail. -/
structure Job where
  status : JobState
  progress : Nat
  message : String
  error : Option String
deriving DecidableEq, Repr

/-- A terminal status (spec §4.6): `completed` or `failed`. -/
def isTerminal (st : JobState) : Prop :=
  st = JobState.completed ∨ st = JobState.failed

instance (st : JobState) : Decidable (isTerminal st) := by
  unfold isTerminal
  infer_instance

/-- Modelled from the spec: one transition of the Job Orchestrator state
machine (spec §4.6 together with the §3 invariant): start
(`pending → processing`), a progress update within `processing` that never
decreases progress, and the two terminal transitions out of `processing`.
No other edge exists. -/
def JobStep (s t : Job) : Prop :=
  (s.status = JobState.pending ∧ t.status = JobState.processing)
  ∨ (s.status = JobState.processing ∧ t.status = JobState.processing
      ∧ s.progress ≤ t.progress)
  ∨ (s.status = JobState.processing ∧ t.status = JobState.completed)
  ∨ (s.status = JobState.processing ∧ t.status = JobState.failed)

instance : DecidableRel JobStep := fun s t => by
  unfold JobStep
  infer_instance

lemma no_step_of_terminal {s t : Job} (hs : isTerminal s.status) : ¬ JobStep s t := by
  rcases hs with h | h <;>
    rintro (⟨h1, -⟩ | ⟨h1, -, -⟩ | ⟨h1, -⟩ | ⟨h1, -⟩) <;> rw [h] at h1 <;> cases h1

lemma step_from_processing {s t : Job} (hst : JobStep s t)
    (hs : s.status = JobState.processing) :
    (t.status = JobState.processing ∧ s.progress ≤ t.progress) ∨ isTerminal t.status := by
  rcases hst with ⟨h1, -⟩ | ⟨-, h2, h3⟩ | ⟨-, h2⟩ | ⟨-, h2⟩
  · rw [hs] at h1; cases h1
  · exact Or.inl ⟨h2, h3⟩
  · exact Or.inr (Or.inl h2)
  · exact Or.inr (Or.inr h2)

/-- Along a transition chain, an index holding a terminal status is the last
index: there is no transition out of a terminal state. -/
lemma terminal_is_last {js : List Job} (hc : List.Chain' JobStep js)
    {i : Nat} (hi : i < js.length) (ht : isTerminal (js.get ⟨i, hi⟩).status) :
    i = js.length - 1 := by
  by_contra hne
  have hlt : i < js.length - 1 := by omega
  have hstep := List.chain'_iff_get.mp hc i hlt
  exact no_step_of_terminal ht hstep

end Orchestrator

namespace Analyzer

/-- Modelled from the spec: a candidate `HighlightWindow` (spec §3): start
time, end time (called `stop` here since `end` is reserved), a virality
score, and rationale text.  Times and score are rationals with at least the
0.01s precision the spec requires. -/
structure HighlightWindow where
  start : ℚ
  stop : ℚ
  score : ℚ
  rationale : String
deriving DecidableEq, Repr

/-- Modelled from the spec: the validation predicate of the Highlight
Analyzer (spec §4.3 and §8): a kept window has `start < stop`, duration
within `[minDur, maxDur]`, times within the transcript range
`[tStart, tEnd]`, and a score within the data-model bound `[0, 1]`
(spec §3). -/
def validWindow (minDur maxDur tStart tEnd : ℚ) (w : HighlightWindow) : Bool :=
  decide (w.start < w.stop)
    && decide (minDur ≤ w.stop - w.start)
    && decide (w.stop - w.start ≤ maxDur)
    && decide (tStart ≤ w.start)
    && decide (w.stop ≤ tEnd)
    && decide (0 ≤ w.score)
    && decide (w.score ≤ 1)

/-- Modelled from the spec: the Highlight Analyzer discards every parsed
candidate window that fails validation and returns the rest (spec §4.3);
the analyzer implementation is not among the provided sources. -/
def validateWindows (minDur maxDur tStart tEnd : ℚ)
    (cands : List HighlightWindow) : List HighlightWindow :=
  cands.filter (validWindow minDur maxDur tStart tEnd)

end Analyzer

/-- C3 counterexample: the status badge of ProcessingStatus.tsx (line 106)
displays the literal `ready` — a status value outside the four of the data
model — whenever no status response is held yet. -/
theorem ready_badge_counterexample :
    ProcessingStatus.badgeText none = "ready"
    ∧ ProcessingStatus.badgeText none ∉ ProcessingStatus.jobStatusStrings := by
  refine ⟨rfl, ?_⟩
  decide

/-- C3 (amended): every job status value held in client job state is one of
the four values pending, processing, completed, failed (the caption-remover
page's state admits only the last three), and every displayed status value is
among the four except the placeholder `ready`, which the status badge shows
exactly while no status is held. -/
theorem client_status_values :
    (∀ s : ProcessingStatus.JobStatus,
        ProcessingStatus.statusText s ∈ ProcessingStatus.jobStatusStrings)
    ∧ (∀ s : ViralClipsPage.JobStatus,
        ViralClipsPage.statusText s ∈ ProcessingStatus.jobStatusStrings)
    ∧ (∀ s : CaptionRemoverPage.JobStatus,
        CaptionRemoverPage.statusText s ∈ ProcessingStatus.jobStatusStrings)
    ∧ (∀ s? : Option ProcessingStatus.JobStatus,
        ProcessingStatus.badgeText s? ∈ ProcessingStatus.jobStatusStrings
        ∨ (s? = none ∧ ProcessingStatus.badgeText s? = "ready")) := by
  refine ⟨?_, ?_, ?_, ?_⟩
  · intro s; cases s <;> simp [ProcessingStatus.statusText, ProcessingStatus.jobStatusStrings]
  · intro s; cases s <;> simp [ViralClipsPage.statusText, ProcessingStatus.jobStatusStrings]
  · intro s; cases s <;> simp [CaptionRemoverPage.statusText, ProcessingStatus.jobStatusStrings]
  · intro s?
    cases s? with
    | none => exact Or.inr ⟨rfl, rfl⟩
    | some s =>
      left
      cases s <;>
        simp [ProcessingStatus.badgeText, ProcessingStatus.statusText,
          ProcessingStatus.jobStatusStrings]

/-- C4: a selected or dropped file whose MIME type is outside
`video/mp4`, `video/quicktime`, `video/x-matroska` makes every upload
component set the error `Please upload MP4, MOV, or MKV files only.` without
accepting the file into state, and — the stored file being unchanged — no job
submission request is ever issued for it. -/
theorem upload_reject_invalid_type (f : FileMeta)
    (hf : validTypes.contains f.type = false) :
    (∀ s : VideoUpload.UploadState,
        (VideoUpload.validateFile s f).2 = false
        ∧ (VideoUpload.validateFile s f).1.error = some invalidTypeMsg
        ∧ (VideoUpload.handleFileSelect s (some f)).file = s.file
        ∧ (VideoUpload.handleFileSelect s (some f)).error = some invalidTypeMsg
        ∧ (VideoUpload.handleDrop s (some f)).file = s.file
        ∧ (s.file = none →
            VideoUpload.handleUpload (VideoUpload.handleFileSelect s (some f)) = none))
    ∧ (∀ s : ViralClipsPage.PageState,
        (ViralClipsPage.validateAndSetFile s f).error = some invalidTypeMsg
        ∧ (ViralClipsPage.validateAndSetFile s f).file = s.file
        ∧ (s.file = none →
            ViralClipsPage.handleSubmit (ViralClipsPage.validateAndSetFile s f) = none))
    ∧ (∀ s : CaptionRemover.PageState,
        (CaptionRemover.validateAndSetFile s f).error = some invalidTypeMsg
        ∧ (CaptionRemover.validateAndSetFile s f).file = s.file
        ∧ (s.file = none →
            CaptionRemover.handleSubmit (CaptionRemover.validateAndSetFile s f) = none)) := by
  have hf' : f.type ∉ validTypes := by simpa using hf
  refine ⟨?_, ?_, ?_⟩
  · intro s
    refine ⟨?_, ?_, ?_, ?_, ?_, ?_⟩ <;>
      simp [VideoUpload.validateFile, VideoUpload.handleFileSelect,
        VideoUpload.handleDrop, VideoUpload.handleUpload, hf']
    intro h
    simp [h]
  · intro s
    refine ⟨?_, ?_, ?_⟩ <;>
      simp [ViralClipsPage.validateAndSetFile, ViralClipsPage.handleSubmit, hf']
    intro h
    simp [h]
  · intro s
    refine ⟨?_, ?_, ?_⟩ <;>
      simp [CaptionRemover.validateAndSetFile, CaptionRemover.handleSubmit, hf']
    intro h
    simp [h]

/-- C4 witness: a PNG image is rejected by all components and never submitted. -/
theorem upload_reject_invalid_type_witness :
    validTypes.contains (FileMeta.mk "pic.png" "image/png" 1000).type = false
    ∧ (VideoUpload.validateFile
        (VideoUpload.UploadState.mk false none false 0 none)
        (FileMeta.mk "pic.png" "image/png" 1000)).2 = false := by
  refine ⟨by decide, ?_⟩
  exact ((upload_reject_invalid_type (FileMeta.mk "pic.png" "image/png" 1000)
    (by decide)).1 (VideoUpload.UploadState.mk false none false 0 none)).1

/-- C10: `validateFile` of the caption-tool upload accepts a file exactly when
its MIME type is among the three supported ones and its size is at most
`10 * 1024 ^ 3` bytes; an oversize file is rejected with the error
`File size must be under 10GB.` and never stored nor uploaded, while the
dropzone help text still advertises `500MB`. -/
theorem videoupload_accepts_iff_type_and_size :
    (∀ (s : VideoUpload.UploadState) (f : FileMeta),
        (VideoUpload.validateFile s f).2 = true ↔
          (f.type ∈ validTypes ∧ f.size ≤ VideoUpload.maxSize))
    ∧ VideoUpload.maxSize = 10 * 1024 ^ 3
    ∧ (∀ (s : VideoUpload.UploadState) (f : FileMeta),
        f.type ∈ validTypes → VideoUpload.maxSize < f.size →
          (VideoUpload.validateFile s f).2 = false
          ∧ (VideoUpload.validateFile s f).1.error = some VideoUpload.sizeErrMsg
          ∧ (VideoUpload.handleFileSelect s (some f)).file = s.file
          ∧ (s.file = none →
              VideoUpload.handleUpload (VideoUpload.handleFileSelect s (some f)) = none))
    ∧ VideoUpload.dropzoneHelpText
        = "or click to browse â€¢ MP4, MOV, MKV up to " ++ "500MB" := by
  refine ⟨?_, by norm_num [VideoUpload.maxSize], ?_, by rfl⟩
  · intro s f
    simp only [VideoUpload.validateFile]
    split_ifs with h1 h2 <;> simp_all
  · intro s f ht hsz
    refine ⟨?_, ?_, ?_, ?_⟩ <;>
      simp [VideoUpload.validateFile, VideoUpload.handleFileSelect,
        VideoUpload.handleUpload, ht, hsz, Nat.not_le_of_lt]
    intro h
    simp [h]

/-- C10 witness: an 11 GiB MP4 is rejected with the size error. -/
theorem videoupload_accepts_iff_type_and_size_witness :
    (FileMeta.mk "long.mp4" "video/mp4" (11 * 1024 ^ 3)).type ∈ validTypes
    ∧ VideoUpload.maxSize < (FileMeta.mk "long.mp4" "video/mp4" (11 * 1024 ^ 3)).size
    ∧ (VideoUpload.validateFile (VideoUpload.UploadState.mk false none false 0 none)
        (FileMeta.mk "long.mp4" "video/mp4" (11 * 1024 ^ 3))).1.error
        = some VideoUpload.sizeErrMsg := by
  refine ⟨by decide, by norm_num [VideoUpload.maxSize], ?_⟩
  exact ((videoupload_accepts_iff_type_and_size.2.2.1
    (VideoUpload.UploadState.mk false none false 0 none)
    (FileMeta.mk "long.mp4" "video/mp4" (11 * 1024 ^ 3))
    (by decide) (by norm_num [VideoUpload.maxSize]))).2.1

/-- C5: whenever the mask box has width below 10 or height below 10 — in
particular after a non-numeric manual input, which `parseInt(...) || 0`
coerces to 0 — the watermark submit button is disabled, so no
watermark-removal request is issued for such a degenerate mask region. -/
theorem watermark_degenerate_mask_no_job (u : Bool) (m : WatermarkRemover.MaskBox)
    (hm : m.width < 10 ∨ m.height < 10) :
    WatermarkRemover.submitDisabled u m = true
    ∧ WatermarkRemover.submitRequest u m = none
    ∧ WatermarkRemover.jsParseIntOr0 none = 0
    ∧ (∀ (u' : Bool) (m' : WatermarkRemover.MaskBox),
        WatermarkRemover.setMaskField m' WatermarkRemover.MaskKey.width none
          = { m' with width := 0 }
        ∧ WatermarkRemover.submitRequest u'
            (WatermarkRemover.setMaskField m' WatermarkRemover.MaskKey.width none) = none) := by
  have hd : WatermarkRemover.submitDisabled u m = true := by
    rcases hm with h | h <;> simp [WatermarkRemover.submitDisabled, h]
  refine ⟨hd, ?_, rfl, ?_⟩
  · simp [WatermarkRemover.submitRequest, hd]
  · intro u' m'
    refine ⟨rfl, ?_⟩
    simp [WatermarkRemover.submitRequest, WatermarkRemover.submitDisabled,
      WatermarkRemover.setMaskField, WatermarkRemover.jsParseIntOr0]

/-- C5 witness: a 5×40 mask box disables submission. -/
theorem watermark_degenerate_mask_no_job_witness :
    WatermarkRemover.submitDisabled false (WatermarkRemover.MaskBox.mk 0 0 5 40) = true
    ∧ WatermarkRemover.submitRequest false (WatermarkRemover.MaskBox.mk 0 0 5 40) = none := by
  have h := watermark_degenerate_mask_no_job false
    (WatermarkRemover.MaskBox.mk 0 0 5 40) (Or.inl (by decide))
  exact ⟨h.1, h.2.1⟩

/-- C6: for a drag between two mouse positions, each point is scaled into
source-frame pixels by `videoWidth / displayWidth` and
`videoHeight / displayHeight` and rounded, the stored box is the minimum
corner with absolute extents (hence nonnegative width and height), and the
submitted `mask_box` value is the string `x,y,width,height`. -/
theorem watermark_drag_box_spec
    (sx sy cx cy rectLeft rectTop vw vh dw dh : ℚ)
    (hdw : 0 < dw) (hdh : 0 < dh) :
    (WatermarkRemover.getRelativeCoords sx sy rectLeft rectTop vw vh dw dh).1
      = WatermarkRemover.jsRound ((sx - rectLeft) * (vw / dw))
    ∧ (WatermarkRemover.getRelativeCoords sx sy rectLeft rectTop vw vh dw dh).2
      = WatermarkRemover.jsRound ((sy - rectTop) * (vh / dh))
    ∧ (WatermarkRemover.getRelativeCoords cx cy rectLeft rectTop vw vh dw dh).1
      = WatermarkRemover.jsRound ((cx - rectLeft) * (vw / dw))
    ∧ (WatermarkRemover.getRelativeCoords cx cy rectLeft rectTop vw vh dw dh).2
      = WatermarkRemover.jsRound ((cy - rectTop) * (vh / dh))
    ∧ (∀ s c : Int × Int,
        WatermarkRemover.dragMaskBox s c
          = WatermarkRemover.MaskBox.mk (min s.1 c.1) (min s.2 c.2)
              |c.1 - s.1| |c.2 - s.2|
        ∧ 0 ≤ (WatermarkRemover.dragMaskBox s c).width
        ∧ 0 ≤ (WatermarkRemover.dragMaskBox s c).height
        ∧ WatermarkRemover.maskBoxParam (WatermarkRemover.dragMaskBox s c)
            = toString (min s.1 c.1) ++ "," ++ toString (min s.2 c.2) ++ ","
              ++ toString |c.1 - s.1| ++ "," ++ toString |c.2 - s.2|) := by
  refine ⟨rfl, rfl, rfl, rfl, ?_⟩
  intro s c
  exact ⟨rfl, abs_nonneg _, abs_nonneg _, rfl⟩

/-- C6 witness: a drag on a 1920×1080 video shown at 960×540 from client
point (110, 70) to (10, 120) over a container at (10, 20). -/
theorem watermark_drag_box_spec_witness :
    (0 : ℚ) < 960 ∧ (0 : ℚ) < 540
    ∧ (WatermarkRemover.getRelativeCoords 110 70 10 20 1920 1080 960 540).1
        = WatermarkRemover.jsRound ((110 - 10) * ((1920 : ℚ) / 960))
    ∧ WatermarkRemover.dragMaskBox (200, 100) (0, 240)
        = WatermarkRemover.MaskBox.mk 0 100 200 140
    ∧ WatermarkRemover.maskBoxParam (WatermarkRemover.dragMaskBox (200, 100) (0, 240))
        = "0,100,200,140" := by
  have h := watermark_drag_box_spec 110 70 10 120 10 20 1920 1080 960 540
    (by norm_num) (by norm_num)
  refine ⟨by norm_num, by norm_num, h.1, ?_, ?_⟩
  · have hb := (h.2.2.2.2 (200, 100) (0, 240)).1
    rw [hb]
    norm_num
  · have hp := (h.2.2.2.2 (200, 100) (0, 240)).2.2.2
    rw [hp]
    rfl

/-- C8: the status poller of the viral-clips page fires every 2000 ms; while
active, a failed or non-ok status fetch leaves the poller state (stored job
and activity) untouched, and an ok response deactivates the interval exactly
when it reports status `completed` or `failed`; once inactive the callback
never changes the state again. -/
theorem poller_error_tolerant_stops_on_terminal
    (s : ViralClipsPage.PollState) (hs : s.active = true) :
    ViralClipsPage.pollIntervalMs = 2000
    ∧ ViralClipsPage.pollTick s ViralClipsPage.PollResult.fetchFailed = s
    ∧ ViralClipsPage.pollTick s ViralClipsPage.PollResult.notOk = s
    ∧ (∀ d : ViralClipsPage.PollData,
        (ViralClipsPage.pollTick s (ViralClipsPage.PollResult.ok d)).active = false
          ↔ (d.status = "completed" ∨ d.status = "failed"))
    ∧ (∀ (s' : ViralClipsPage.PollState) (r : ViralClipsPage.PollResult),
        s'.active = false → ViralClipsPage.pollTick s' r = s') := by
  refine ⟨rfl, ?_, ?_, ?_, ?_⟩
  · simp [ViralClipsPage.pollTick, hs]
  · simp [ViralClipsPage.pollTick, hs]
  · intro d
    simp only [ViralClipsPage.pollTick, hs]
    by_cases ht : d.status = "completed" ∨ d.status = "failed"
    · rcases ht with h | h <;> simp [h]
    · push_neg at ht
      simp [ht.1, ht.2, hs]
  · intro s' r h
    simp [ViralClipsPage.pollTick, h]

/-- C8 witness: with an active poller holding a started job, a network error
leaves the state unchanged and a `completed` response stops the interval. -/
theorem poller_error_tolerant_stops_on_terminal_witness :
    (ViralClipsPage.PollState.mk none true).active = true
    ∧ ViralClipsPage.pollTick (ViralClipsPage.PollState.mk none true)
        ViralClipsPage.PollResult.fetchFailed = ViralClipsPage.PollState.mk none true
    ∧ ((ViralClipsPage.pollTick (ViralClipsPage.PollState.mk none true)
        (ViralClipsPage.PollResult.ok
          (ViralClipsPage.PollData.mk "completed" (some 100) (some "done") none none))).active
        = false) := by
  have h := poller_error_tolerant_stops_on_terminal
    (ViralClipsPage.PollState.mk none true) rfl
  exact ⟨rfl, h.2.1, (h.2.2.2.1
    (ViralClipsPage.PollData.mk "completed" (some 100) (some "done") none none)).mpr
    (Or.inl rfl)⟩

/-- C7: every window surviving the Highlight Analyzer validation has
duration within `[minDur, maxDur]` and score within `[0, 1]`, and every
candidate with `stop ≤ start`, duration outside the bounds, or times outside
the transcript range `[tStart, tEnd]` is discarded. -/
theorem analyzer_validated_window_bounds (minDur maxDur tStart tEnd : ℚ)
    (cands : List Analyzer.HighlightWindow) :
    (∀ w ∈ Analyzer.validateWindows minDur maxDur tStart tEnd cands,
        w.start < w.stop
        ∧ minDur ≤ w.stop - w.start ∧ w.stop - w.start ≤ maxDur
        ∧ tStart ≤ w.start ∧ w.stop ≤ tEnd
        ∧ 0 ≤ w.score ∧ w.score ≤ 1)
    ∧ (∀ w ∈ cands,
        (w.stop ≤ w.start
          ∨ w.stop - w.start < minDur ∨ maxDur < w.stop - w.start
          ∨ w.start < tStart ∨ tEnd < w.stop) →
        w ∉ Analyzer.validateWindows minDur maxDur tStart tEnd cands) := by
  constructor
  · intro w hw
    rw [Analyzer.validateWindows, List.mem_filter] at hw
    have h := hw.2
    simp only [Analyzer.validWindow, Bool.and_eq_true, decide_eq_true_eq] at h
    refine ⟨?_, ?_, ?_, ?_, ?_, ?_, ?_⟩ <;> tauto
  · intro w _ hbad hmem
    rw [Analyzer.validateWindows, List.mem_filter] at hmem
    have h := hmem.2
    simp only [Analyzer.validWindow, Bool.and_eq_true, decide_eq_true_eq] at h
    have hlt : w.start < w.stop := by tauto
    have hmin : minDur ≤ w.stop - w.start := by tauto
    have hmax : w.stop - w.start ≤ maxDur := by tauto
    have hts : tStart ≤ w.start := by tauto
    have hte : w.stop ≤ tEnd := by tauto
    rcases hbad with h1 | h1 | h1 | h1 | h1 <;> linarith

/-- C7 witness: a 15 s window scored 0.9 inside a 300 s transcript survives
validation with its bounds. -/
theorem analyzer_validated_window_bounds_witness :
    (Analyzer.HighlightWindow.mk 10 25 (9 / 10) "strong hook").start
        < (Analyzer.HighlightWindow.mk 10 25 (9 / 10) "strong hook").stop
    ∧ 0 ≤ (Analyzer.HighlightWindow.mk 10 25 (9 / 10) "strong hook").score
    ∧ (Analyzer.HighlightWindow.mk 10 25 (9 / 10) "strong hook").score ≤ 1 := by
  have hmem : Analyzer.HighlightWindow.mk 10 25 (9 / 10) "strong hook"
      ∈ Analyzer.validateWindows 5 60 0 300
        [Analyzer.HighlightWindow.mk 10 25 (9 / 10) "strong hook"] := by
    simp only [Analyzer.validateWindows, List.filter, Analyzer.validWindow,
      Bool.and_eq_true, decide_eq_true_eq]
    norm_num
  have h := (analyzer_validated_window_bounds 5 60 0 300
      [Analyzer.HighlightWindow.mk 10 25 (9 / 10) "strong hook"]).1
    (Analyzer.HighlightWindow.mk 10 25 (9 / 10) "strong hook") hmem
  exact ⟨h.1, h.2.2.2.2.2.1, h.2.2.2.2.2.2⟩

/-- C9: `fetchVerticalVideos` returns the empty list on an empty API key, a
non-ok response or any fetch error; on an ok response it returns at most
`count` URLs, each the chosen link (HD mp4 first, then SD, then the first
file) of a received video whose height strictly exceeds its width. -/
theorem pexels_fetch_vertical_spec (apiKey query : String) (count : Nat)
    (outcome : Pexels.FetchOutcome) (data : Pexels.PexelsResponse) :
    Pexels.fetchVerticalVideos "" query count outcome = []
    ∧ Pexels.fetchVerticalVideos apiKey query count Pexels.FetchOutcome.fetchError = []
    ∧ Pexels.fetchVerticalVideos apiKey query count Pexels.FetchOutcome.notOk = []
    ∧ (Pexels.fetchVerticalVideos apiKey query count
        (Pexels.FetchOutcome.ok data)).length ≤ count
    ∧ (∀ url ∈ Pexels.fetchVerticalVideos apiKey query count
          (Pexels.FetchOutcome.ok data),
        ∃ v ∈ data.videos, v.width < v.height ∧ Pexels.chooseLink v = some url) := by
  refine ⟨by simp [Pexels.fetchVerticalVideos], ?_, ?_, ?_, ?_⟩
  · by_cases h : apiKey = "" <;> simp [Pexels.fetchVerticalVideos, h]
  · by_cases h : apiKey = "" <;> simp [Pexels.fetchVerticalVideos, h]
  · by_cases h : apiKey = ""
    · simp [Pexels.fetchVerticalVideos, h]
    · simp only [Pexels.fetchVerticalVideos, h, if_false]
      calc ((((data.videos.filter fun v => v.width < v.height).take count).map
              Pexels.chooseLink).filterMap Pexels.keepTruthy).length
          ≤ (((data.videos.filter fun v => v.width < v.height).take count).map
              Pexels.chooseLink).length := List.length_filterMap_le _ _
        _ = ((data.videos.filter fun v => v.width < v.height).take count).length :=
            List.length_map _ _
        _ ≤ count := by rw [List.length_take]; exact min_le_left _ _
  · intro url hurl
    by_cases h : apiKey = ""
    · rw [h] at hurl
      simp [Pexels.fetchVerticalVideos] at hurl
    · simp only [Pexels.fetchVerticalVideos, h, if_false] at hurl
      rw [List.mem_filterMap] at hurl
      obtain ⟨o, ho, hk⟩ := hurl
      have ho' : o = some url := by
        cases o with
        | none => simp [Pexels.keepTruthy] at hk
        | some s =>
          have hk' : (if s = "" then none else some s) = some url := hk
          by_cases hs : s = ""
          · rw [if_pos hs] at hk'
            cases hk'
          · rw [if_neg hs] at hk'
            exact hk'
      subst ho'
      rw [List.mem_map] at ho
      obtain ⟨v, hv, hcl⟩ := ho
      have hv' : v ∈ data.videos.filter fun v => v.width < v.height :=
        List.mem_of_mem_take hv
      rw [List.mem_filter] at hv'
      exact ⟨v, hv'.1, by simpa using hv'.2, hcl⟩

/-- The single video file of the witness response below: an HD vertical mp4. -/
def pexelsDemoFile : Pexels.PexelsVideoFile :=
  Pexels.PexelsVideoFile.mk 1 "hd" "video/mp4" 720 1280 "https://videos.example/a.mp4"

/-- The single vertical video of the witness response below. -/
def pexelsDemoVideo : Pexels.PexelsVideo :=
  Pexels.PexelsVideo.mk 7 720 1280 [pexelsDemoFile] "poster.jpg"

/-- C9 witness: with a nonempty key and one vertical HD video in the
response, the returned URL comes from that video and its HD link. -/
theorem pexels_fetch_vertical_spec_witness :
    ∃ v ∈ (Pexels.PexelsResponse.mk [pexelsDemoVideo]).videos,
      v.width < v.height ∧ Pexels.chooseLink v = some "https://videos.example/a.mp4" := by
  exact (pexels_fetch_vertical_spec "key" "influencer" 3
      Pexels.FetchOutcome.notOk (Pexels.PexelsResponse.mk [pexelsDemoVideo])).2.2.2.2
    "https://videos.example/a.mp4" (by decide)

/-- C1: along any transition chain of the Job Orchestrator whose first
observation is `pending`, a state observed as `processing` has a strictly
earlier `pending` observation, and a terminal observation (`completed` or
`failed`) is never followed by an observation with a different status. -/
theorem job_status_sequence (js : List Orchestrator.Job)
    (hc : List.Chain' Orchestrator.JobStep js)
    (h0 : ∀ h : 0 < js.length,
        (js.get ⟨0, h⟩).status = Orchestrator.JobState.pending) :
    (∀ (i : Nat) (hi : i < js.length),
        (js.get ⟨i, hi⟩).status = Orchestrator.JobState.processing →
        ∃ (k : Nat) (hk : k < js.length), k < i
          ∧ (js.get ⟨k, hk⟩).status = Orchestrator.JobState.pending)
    ∧ (∀ (i j : Nat) (hi : i < js.length) (hj : j < js.length), i ≤ j →
        Orchestrator.isTerminal (js.get ⟨i, hi⟩).status →
        (js.get ⟨j, hj⟩).status = (js.get ⟨i, hi⟩).status) := by
  constructor
  · intro i hi hproc
    have hpos : 0 < js.length := Nat.lt_of_le_of_lt (Nat.zero_le i) hi
    have hp0 := h0 hpos
    have hne : i ≠ 0 := by
      intro hz
      subst hz
      rw [h0 hi] at hproc
      cases hproc
    exact ⟨0, hpos, Nat.pos_of_ne_zero hne, hp0⟩
  · intro i j hi hj hij hterm
    have hlast := Orchestrator.terminal_is_last hc hi hterm
    have hji : j = i := by omega
    subst hji
    rfl

/-- The example trace used by the state-machine witnesses. -/
def demoTrace : List Orchestrator.Job :=
  [Orchestrator.Job.mk Orchestrator.JobState.pending 0 "queued" none,
   Orchestrator.Job.mk Orchestrator.JobState.processing 10 "transcribing" none,
   Orchestrator.Job.mk Orchestrator.JobState.processing 40 "analyzing" none,
   Orchestrator.Job.mk Orchestrator.JobState.completed 100 "done" none]

lemma demoTrace_chain : List.Chain' Orchestrator.JobStep demoTrace :=
  List.chain'_cons.mpr ⟨Or.inl ⟨rfl, rfl⟩,
    List.chain'_cons.mpr ⟨Or.inr (Or.inl ⟨rfl, rfl, by norm_num⟩),
      List.chain'_cons.mpr ⟨Or.inr (Or.inr (Or.inl ⟨rfl, rfl⟩)),
        List.chain'_singleton _⟩⟩⟩

/-- C1 witness: in the example trace, the state observed as `processing` at
index 1 has an earlier `pending` observation. -/
theorem job_status_sequence_witness :
    ∃ (k : Nat) (hk : k < demoTrace.length), k < 1
      ∧ (demoTrace.get ⟨k, hk⟩).status = Orchestrator.JobState.pending := by
  exact (job_status_sequence demoTrace demoTrace_chain (fun _ => rfl)).1
    1 (by decide) rfl

lemma progress_mono_aux (js : List Orchestrator.Job)
    (hc : List.Chain' Orchestrator.JobStep js) :
    ∀ (d i : Nat) (hi : i < js.length) (hd : i + d < js.length),
      (js.get ⟨i, hi⟩).status = Orchestrator.JobState.processing →
      (js.get ⟨i + d, hd⟩).status = Orchestrator.JobState.processing →
      (js.get ⟨i, hi⟩).progress ≤ (js.get ⟨i + d, hd⟩).progress := by
  intro d
  induction d with
  | zero =>
    intro i hi hd _ _
    exact Nat.le_refl _
  | succ d ih =>
    intro i hi hd hpi hpj
    have hi1 : i + 1 < js.length := by omega
    have hstep : Orchestrator.JobStep (js.get ⟨i, hi⟩) (js.get ⟨i + 1, hi1⟩) :=
      List.chain'_iff_get.mp hc i (by omega)
    have hfin : (⟨i + (d + 1), hd⟩ : Fin js.length) = ⟨(i + 1) + d, by omega⟩ :=
      Fin.ext (show i + (d + 1) = (i + 1) + d by omega)
    rw [hfin] at hpj ⊢
    rcases Orchestrator.step_from_processing hstep hpi with ⟨hp1, hle⟩ | hterm
    · exact Nat.le_trans hle (ih (i + 1) hi1 (by omega) hp1 hpj)
    · have hlast := Orchestrator.terminal_is_last hc hi1 hterm
      have hlen : (i + 1) + d < js.length := by omega
      have hd0 : d = 0 := by omega
      subst hd0
      have hpj' : (js.get ⟨i + 1, hi1⟩).status = Orchestrator.JobState.processing := hpj
      rw [hpj'] at hterm
      rcases hterm with h | h <;> cases h

/-- C2: along any transition chain of the Job Orchestrator, whenever two
observations at positions `i ≤ j` both report status `processing`, the later
progress value is at least the earlier one; in particular this holds for any
two successive polls of one processing job. -/
theorem job_progress_monotone (js : List Orchestrator.Job)
    (hc : List.Chain' Orchestrator.JobStep js) :
    ∀ (i j : Nat) (hi : i < js.length) (hj : j < js.length), i ≤ j →
      (js.get ⟨i, hi⟩).status = Orchestrator.JobState.processing →
      (js.get ⟨j, hj⟩).status = Orchestrator.JobState.processing →
      (js.get ⟨i, hi⟩).progress ≤ (js.get ⟨j, hj⟩).progress := by
  intro i j hi hj hij hpi hpj
  have hfin : (⟨j, hj⟩ : Fin js.length) = ⟨i + (j - i), by omega⟩ :=
    Fin.ext (show j = i + (j - i) by omega)
  rw [hfin] at hpj ⊢
  exact progress_mono_aux js hc (j - i) i hi (by omega) hpi hpj

/-- C2 witness: in the example trace, the processing observations at indices
1 and 2 report progress 10 and 40, non-decreasing. -/
theorem job_progress_monotone_witness :
    (demoTrace.get ⟨1, by decide⟩).progress ≤ (demoTrace.get ⟨2, by decide⟩).progress := by
  exact job_progress_monotone demoTrace demoTrace_chain 1 2 (by decide) (by decide)
    (by decide) rfl rfl
